import Mathlib

/-!
Shallow embedding of the DocumentAtom Python SDK (document_atom_sdk) and
proofs about its specification claims.

The embedding translates the repository sources:
  * src/document_atom_sdk/mixins.py           (file-input normalization, type
    detection, atom extraction)
  * src/document_atom_sdk/utils/url_helper.py (URL construction)
  * src/document_atom_sdk/configuration.py    (configure / get_client)
  * src/document_atom_sdk/models/*.py         (pydantic response models)
The resilient request client (base.py), the exception hierarchy
(exceptions.py) and the error-code enum (api_error_enum.py) are imported by
the package but their files are not part of the sources; those parts are
modelled from the specification, with the retry-exhaustion message format
pinned by the repository test suite (tests/test_base.py).  Each such
definition carries a doc comment starting with: Modelled from the spec.

Machine integers do not occur; byte payloads are lists of naturals and all
string handling is on explicit character lists so that every definition
reduces in the kernel.
-/

/-- ASCII lower-casing of one character.  Models Python str.lower for the
ASCII inputs that occur in the SDK (format identifiers, file suffixes);
non-ASCII behaviour of str.lower is never exercised by the code paths
embedded here. -/
def pyLowerChar (c : Char) : Char :=
  if 'A' ≤ c ∧ c ≤ 'Z' then Char.ofNat (c.toNat + 32) else c

/-- Models Python str.lower (ASCII fragment). -/
def pyLower (s : String) : String :=
  String.mk (s.toList.map pyLowerChar)

/-- Characters after the last slash: models pathlib PurePath.name for the
plain relative/absolute POSIX paths the SDK handles. -/
def pyBasenameChars (cs : List Char) : List Char :=
  cs.foldl (fun acc c => if c == '/' then [] else acc ++ [c]) []

/-- Models pathlib Path(s).name . -/
def pyBasename (s : String) : String :=
  String.mk (pyBasenameChars s.toList)

/-- Models pathlib PurePath.suffix on the base name: the substring from the
last dot, provided that dot is neither the first nor the last character of
the name; otherwise the empty string. -/
def pySuffixChars (cs0 : List Char) : List Char :=
  let cs := pyBasenameChars cs0
  match cs.reverse.findIdx? (fun c => c == '.') with
  | none => []
  | some rj =>
    let i := cs.length - 1 - rj
    if 0 < i ∧ i < cs.length - 1 then cs.drop i else []

/-- Models pathlib Path(s).suffix . -/
def pySuffix (s : String) : String :=
  String.mk (pySuffixChars s.toList)

/-- Models Python str.join (used by the SDK as sep.join(parts)). -/
def joinSep (sep : String) : List String → String
  | [] => ""
  | [x] => x
  | x :: y :: xs => x ++ sep ++ joinSep sep (y :: xs)

/-- Boolean test that the first character list is an initial segment of the
second; used to recognise message shapes. -/
def charStarts : List Char → List Char → Bool
  | [], _ => true
  | _ :: _, [] => false
  | a :: as, b :: bs => a == b && charStarts as bs

/-- Boolean test that the first list occurs contiguously inside the second. -/
def charOccurs (needle : List Char) : List Char → Bool
  | [] => needle.isEmpty
  | c :: cs => charStarts needle (c :: cs) || charOccurs needle cs

/-- Substring test on strings (hay contains needle). -/
def strContains (hay needle : String) : Bool :=
  charOccurs needle.toList hay.toList

/-- Exceptions raised by the SDK.  The constructors mirror the classes
exported by document_atom_sdk.exceptions (SdkException and its typed
subclasses, plus the package-local ValidationError and FileNotFoundError)
together with the Python builtin ValueError, which configuration.py raises
directly.  exceptions.py itself is not among the sources; the constructor
list follows the package import list in document_atom_sdk/__init__.py and
the Error Taxonomy of the specification.  The builtin ValueError is kept as
a separate constructor because it is not part of the SdkException
hierarchy. -/
inductive SdkError where
  | sdkException (msg : String)
  | validationError (msg : String)
  | fileNotFoundError (msg : String)
  | valueError (msg : String)
  | authenticationError (msg : String)
  | authorizationError (msg : String)
  | badRequestError (msg : String)
  | conflictError (msg : String)
  | deserializationError (msg : String)
  | inactiveError (msg : String)
  | inUseError (msg : String)
  | invalidRangeError (msg : String)
  | notEmptyError (msg : String)
  | resourceNotFoundError (msg : String)
  | serverError (msg : String)
  | timeoutError (msg : String)
deriving DecidableEq

/-- Human-readable message carried by an exception. -/
def SdkError.message : SdkError → String
  | .sdkException m => m
  | .validationError m => m
  | .fileNotFoundError m => m
  | .valueError m => m
  | .authenticationError m => m
  | .authorizationError m => m
  | .badRequestError m => m
  | .conflictError m => m
  | .deserializationError m => m
  | .inactiveError m => m
  | .inUseError m => m
  | .invalidRangeError m => m
  | .notEmptyError m => m
  | .resourceNotFoundError m => m
  | .serverError m => m
  | .timeoutError m => m

/-- True exactly for the generic SdkException root error. -/
def SdkError.isGenericSdkException : SdkError → Bool
  | .sdkException _ => true
  | _ => false

/-- Name of the exception class, for comparison with the taxonomy table. -/
def SdkError.kindName : SdkError → String
  | .sdkException _ => "SdkException"
  | .validationError _ => "ValidationError"
  | .fileNotFoundError _ => "FileNotFoundError"
  | .valueError _ => "ValueError"
  | .authenticationError _ => "AuthenticationError"
  | .authorizationError _ => "AuthorizationError"
  | .badRequestError _ => "BadRequestError"
  | .conflictError _ => "ConflictError"
  | .deserializationError _ => "DeserializationError"
  | .inactiveError _ => "InactiveError"
  | .inUseError _ => "InUseError"
  | .invalidRangeError _ => "InvalidRangeError"
  | .notEmptyError _ => "NotEmptyError"
  | .resourceNotFoundError _ => "ResourceNotFoundError"
  | .serverError _ => "ServerError"
  | .timeoutError _ => "TimeoutError"

/-- Status of a filesystem path, as observed by Path.exists / Path.is_file
in mixins.py: the path is absent, exists but is not a regular file, or is a
regular file with the given byte content. -/
inductive PathStatus where
  | absent
  | notFile
  | file (content : List Nat)

/-- An open readable binary object as the Python code sees one: its byte
content and current position.  open(path, "rb") yields position 0;
a fresh in-memory BytesIO buffer yields position 0; a caller-supplied stream has whatever
position it is at. -/
structure PyFileObj where
  content : List Nat
  pos : Nat
deriving DecidableEq

/-- Models the seek method (only seek(0) is used by the SDK). -/
def PyFileObj.seek (f : PyFileObj) (n : Nat) : PyFileObj :=
  { f with pos := n }

/-- Models read(): all bytes from the current position. -/
def PyFileObj.readAll (f : PyFileObj) : List Nat :=
  f.content.drop f.pos

/-- A stream argument as passed to _prepare_file_input.  The field
passes_isinstance_check records the result of the source test
isinstance against the class pair BytesIO / BinaryIO: it is true for
in-memory BytesIO buffers (and explicit subclasses of the typing class
called BinaryIO) and false for every
other file-like object — in particular for an ordinary open file handle
(io.BufferedReader), because that typing class is a plain nominal one, not
a structural protocol, so the isinstance test does not recognise it.
typeName is the repr of the runtime type, used in the rejection message.
name is the value of the name attribute when present. -/
structure StreamObj where
  passes_isinstance_check : Bool
  typeName : String
  name : Option String
  content : List Nat
  pos : Nat

/-- The discriminated union of accepted file_input shapes, decided by the
isinstance dispatch in _prepare_file_input: a path string, a bytes object,
a file-like object, or any other Python value (carrying the repr of its
type for the error message). -/
inductive FileInput where
  | path (p : String)
  | bytes (b : List Nat)
  | stream (s : StreamObj)
  | other (typeName : String)

/-- Python truthiness of the optional filename argument: None and the empty
string are falsy. -/
def truthyFilename : Option String → Option String
  | none => none
  | some s => if s == "" then none else some s

/-- Translated from AtomExtractableAPIResource._prepare_file_input (the
identical copy in TypeDetectableAPIResource is shared).  The filesystem is
passed explicitly; no network is involved. -/
def prepare_file_input (fs : String → PathStatus) (file_input : FileInput)
    (filename : Option String) : Except SdkError (PyFileObj × String) :=
  match file_input with
  | .path p =>
    match fs p with
    | .absent => .error (.fileNotFoundError ("File does not exist: " ++ p))
    | .notFile => .error (.validationError ("Path is not a file: " ++ p))
    | .file content => .ok (⟨content, 0⟩, pyBasename p)
  | .bytes b =>
    match truthyFilename filename with
    | none => .error (.validationError "filename is required when file_input is bytes")
    | some f => .ok (⟨b, 0⟩, f)
  | .stream s =>
    if s.passes_isinstance_check then
      match truthyFilename filename with
      | some f => .ok (⟨s.content, s.pos⟩, f)
      | none =>
        match s.name with
        | none => .error (.validationError
            "filename is required when file_input is a file-like object without a name")
        | some n =>
          if n == "file" then
            .error (.validationError
              "filename is required when file_input is a file-like object without a name")
          else .ok (⟨s.content, s.pos⟩, n)
    else
      .error (.validationError
        ("file_input must be str (file path), bytes, or file-like object, got " ++ s.typeName))
  | .other t =>
    .error (.validationError
      ("file_input must be str (file path), bytes, or file-like object, got " ++ t))

/-- Translated from utils/url_helper._get_url_base.  Path segments are the
resource name followed by the non-None positional arguments; query
parameters with a None value are emitted as bare flags.  The
percent-encoding performed by urllib urlencode is elided: the SDK only ever
passes an empty key/value parameter set to it. -/
def get_url_base (resourceName : String) (args : List (Option String))
    (queryParams : List (String × Option String)) : String :=
  let remainingArgs := args.filterMap id
  let parts := resourceName :: remainingArgs
  let path := joinSep "/" (parts.filter (fun p => !(p == "")))
  let formattedParams := queryParams.filter (fun kv => kv.2.isSome)
  let flags := (queryParams.filter (fun kv => kv.2.isNone)).map Prod.fst
  let queryString := joinSep "&" (formattedParams.map (fun kv => kv.1 ++ "=" ++ (kv.2.getD "")))
  let queryString2 :=
    if flags.isEmpty then queryString
    else queryString ++ (if queryString == "" then "" else "&") ++ joinSep "&" flags
  if queryString2 == "" then path else path ++ "?" ++ queryString2

/-- JSON values, as decoded request/response bodies. -/
inductive Json where
  | null
  | bool (b : Bool)
  | num (n : Int)
  | str (s : String)
  | arr (xs : List Json)
  | obj (fields : List (String × Json))

/-- Field lookup on a decoded JSON object (Python dict access; keys are
unique in decoded JSON objects, so first match suffices). -/
def jLookup (fields : List (String × Json)) (k : String) : Option Json :=
  match fields with
  | [] => none
  | (k2, v) :: rest => if k2 == k then some v else jLookup rest k

/-- Translated from AtomExtractableAPIResource.SUPPORTED_FORMATS.  The
source stores a set literal; this list fixes the order produced by
sorted(SUPPORTED_FORMATS), which is the order used in the validation error
message.  Membership is order-independent. -/
def SUPPORTED_FORMATS : List String :=
  ["csv", "excel", "html", "json", "markdown", "ocr", "pdf", "png",
   "powerpoint", "rtf", "text", "word", "xml"]

/-- Translated from AtomExtractableAPIResource.FORMATS_WITH_OCR. -/
def FORMATS_WITH_OCR : List String := ["pdf", "powerpoint", "rtf"]

/-- Translated from AtomExtractableAPIResource.MIME_TYPES. -/
def MIME_TYPES : List (String × String) :=
  [("csv", "text/csv"),
   ("excel", "application/vnd.openxmlformats-officedocument.spreadsheetml.sheet"),
   ("html", "text/html"),
   ("json", "application/json"),
   ("markdown", "text/markdown"),
   ("ocr", "application/octet-stream"),
   ("pdf", "application/pdf"),
   ("png", "image/png"),
   ("powerpoint", "application/vnd.openxmlformats-officedocument.presentationml.presentation"),
   ("rtf", "application/rtf"),
   ("text", "text/plain"),
   ("word", "application/vnd.openxmlformats-officedocument.wordprocessingml.document"),
   ("xml", "application/xml")]

/-- Translated from the mime_map local table in
TypeDetectableAPIResource.detect_type (keys carry the leading dot of
Path.suffix). -/
def detect_mime_map : List (String × String) :=
  [(".pdf", "application/pdf"),
   (".png", "image/png"),
   (".jpg", "image/jpeg"),
   (".jpeg", "image/jpeg"),
   (".docx", "application/vnd.openxmlformats-officedocument.wordprocessingml.document"),
   (".doc", "application/msword"),
   (".xlsx", "application/vnd.openxmlformats-officedocument.spreadsheetml.sheet"),
   (".xls", "application/vnd.ms-excel"),
   (".pptx", "application/vnd.openxmlformats-officedocument.presentationml.presentation"),
   (".ppt", "application/vnd.ms-powerpoint"),
   (".txt", "text/plain"),
   (".html", "text/html"),
   (".htm", "text/html"),
   (".csv", "text/csv"),
   (".json", "application/json"),
   (".xml", "application/xml"),
   (".md", "text/markdown"),
   (".rtf", "application/rtf")]

/-- Content type computed by detect_type from the resolved filename:
mime_map.get(Path(file_name).suffix.lower(), "application/octet-stream"). -/
def detect_content_type (file_name : String) : String :=
  ((detect_mime_map.lookup (pyLower (pySuffix file_name))).getD "application/octet-stream")

/-- Client configuration as constructed by BaseClient.__init__ (base.py is
not among the sources; the three fields and their meaning are pinned by
tests/test_base.py test_client_initialization and by configuration.py). -/
structure BaseClient where
  base_url : String
  timeout : Nat
  retries : Nat
deriving DecidableEq

/-- Default timeout of configure (configuration.py). -/
def configureDefaultTimeout : Nat := 10

/-- Default retry count of configure (configuration.py). -/
def configureDefaultRetries : Nat := 3

/-- The message raised by get_client before configuration
(configuration.py). -/
def notConfiguredMessage : String :=
  "SDK is not configured. Call \x27configure\x27 first."

/-- Translated from configuration.configure acting on the module-global
client slot: None endpoint raises the builtin ValueError before the global
is touched; any other endpoint string (the empty string included) replaces
the global with a fresh BaseClient built from exactly the given values. -/
def applyConfigure (prev : Option BaseClient) (endpoint : Option String)
    (timeout retries : Nat) : Except SdkError (Option BaseClient) :=
  match endpoint, prev with
  | none, _ => .error (.valueError "Endpoint is required")
  | some e, _ => .ok (some ⟨e, timeout, retries⟩)

/-- Translated from configuration.get_client. -/
def get_client (client? : Option BaseClient) : Except SdkError BaseClient :=
  match client? with
  | none => .error (.valueError notConfiguredMessage)
  | some c => .ok c

/-- The HTTP request as handed to the transport by client.request: method,
relative URL, raw byte content, and the caller-supplied headers. -/
structure IssuedRequest where
  method : String
  url : String
  content : List Nat
  headers : List (String × String)
deriving DecidableEq

/-- The query-parameter dict built by extract_atoms: the value-less ocr
flag is inserted exactly when the format supports OCR and ocr is passed and
true (None and False both leave the dict empty). -/
def extract_query_params (format_type : String) (ocr : Option Bool) :
    List (String × Option String) :=
  if FORMATS_WITH_OCR.contains format_type then
    match ocr with
    | some true => [("ocr", none)]
    | _ => []
  else []

/-- The validation message for an unsupported format (extract_atoms). -/
def unsupportedFormatMessage (format_type : String) : String :=
  "Unsupported format: " ++ format_type ++ ". Supported formats: " ++
    joinSep ", " SUPPORTED_FORMATS

/-- Translated from AtomExtractableAPIResource.extract_atoms up to the
transport call: get_client first, then case-insensitive format validation,
then file normalization, then URL and content-type computation; the result
is the request handed to client.request (method POST, raw bytes read after
rewinding, and the Content-Type header for the format).  Failures happen in
exactly that order, all before any network activity. -/
def extract_atoms (client? : Option BaseClient) (fs : String → PathStatus)
    (file_input : FileInput) (format_type : String) (ocr : Option Bool)
    (filename : Option String) : Except SdkError IssuedRequest :=
  match get_client client? with
  | .error e => .error e
  | .ok _ =>
    let ft := pyLower format_type
    if SUPPORTED_FORMATS.contains ft then
      match prepare_file_input fs file_input filename with
      | .error e => .error e
      | .ok (file_obj, _file_name) =>
        let url := get_url_base "atom" [some ft] (extract_query_params ft ocr)
        let content_type := (MIME_TYPES.lookup ft).getD "application/octet-stream"
        .ok ⟨"POST", url, (file_obj.seek 0).readAll, [("Content-Type", content_type)]⟩
    else .error (.validationError (unsupportedFormatMessage ft))

/-- Translated from AtomExtractableAPIResource.extract_atoms_pdf (the
fixed-format specialization). -/
def extract_atoms_pdf (client? : Option BaseClient) (fs : String → PathStatus)
    (file_input : FileInput) (ocr : Option Bool) (filename : Option String) :
    Except SdkError IssuedRequest :=
  extract_atoms client? fs file_input "pdf" ocr filename

/-- Translated from TypeDetectableAPIResource.detect_type up to the
transport call: get_client first, then file normalization, then the
typedetect URL and the content type inferred from the resolved filename. -/
def detect_type (client? : Option BaseClient) (fs : String → PathStatus)
    (file_input : FileInput) (filename : Option String) :
    Except SdkError IssuedRequest :=
  match get_client client? with
  | .error e => .error e
  | .ok _ =>
    match prepare_file_input fs file_input filename with
    | .error e => .error e
    | .ok (file_obj, file_name) =>
      let url := get_url_base "typedetect" [] []
      let content_type := detect_content_type file_name
      .ok ⟨"POST", url, (file_obj.seek 0).readAll, [("Content-Type", content_type)]⟩

/-- Translated from ConnectivityCheckableAPIResource.validate_connectivity
up to the transport call: get_client is invoked outside the try block, so
the not-configured ValueError propagates unwrapped; on a configured client
a HEAD request against the service root is issued. -/
def validate_connectivity (client? : Option BaseClient) :
    Except SdkError IssuedRequest :=
  match get_client client? with
  | .error e => .error e
  | .ok _ => .ok ⟨"HEAD", "", [], []⟩

/-- Modelled from the spec: the server error codes of the Error Taxonomy
(spec 4.3).  The file enums/api_error_enum.py is not among the sources;
the twelve rows follow the taxonomy table, and the wire string of the
server-side internal error is pinned by tests/test_base.py
test_server_error, which maps the literal InternalError to ServerError. -/
inductive ApiErrorCode where
  | authenticationFailed
  | authorizationFailed
  | badRequest
  | conflict
  | deserializationFailed
  | inactive
  | inUse
  | invalidRange
  | notEmpty
  | notFound
  | internalError
  | timeout
deriving DecidableEq

/-- Modelled from the spec: the wire string of each server error code
(enums/api_error_enum.py is not among the sources; InternalError is pinned
by the tests, the rest follow the taxonomy row names). -/
def ApiErrorCode.wire : ApiErrorCode → String
  | .authenticationFailed => "AuthenticationFailed"
  | .authorizationFailed => "AuthorizationFailed"
  | .badRequest => "BadRequest"
  | .conflict => "Conflict"
  | .deserializationFailed => "DeserializationError"
  | .inactive => "Inactive"
  | .inUse => "InUse"
  | .invalidRange => "InvalidRange"
  | .notEmpty => "NotEmpty"
  | .notFound => "NotFound"
  | .internalError => "InternalError"
  | .timeout => "Timeout"

/-- Modelled from the spec: recognition of a wire code string (inverse of
ApiErrorCode.wire; any other string is an unrecognized code). -/
def codeOfString (s : String) : Option ApiErrorCode :=
  if s == "AuthenticationFailed" then some .authenticationFailed
  else if s == "AuthorizationFailed" then some .authorizationFailed
  else if s == "BadRequest" then some .badRequest
  else if s == "Conflict" then some .conflict
  else if s == "DeserializationError" then some .deserializationFailed
  else if s == "Inactive" then some .inactive
  else if s == "InUse" then some .inUse
  else if s == "InvalidRange" then some .invalidRange
  else if s == "NotEmpty" then some .notEmpty
  else if s == "NotFound" then some .notFound
  else if s == "InternalError" then some .internalError
  else if s == "Timeout" then some .timeout
  else none

/-- Modelled from the spec: get_exception_for_error_code of exceptions.py
(file not among the sources), the fixed table of the Error Taxonomy
(spec 4.3) mapping a recognised code to its exception kind, always carrying
the server Description as the message. -/
def get_exception_for_error_code (code : ApiErrorCode) (description : String) :
    SdkError :=
  match code with
  | .authenticationFailed => .authenticationError description
  | .authorizationFailed => .authorizationError description
  | .badRequest => .badRequestError description
  | .conflict => .conflictError description
  | .deserializationFailed => .deserializationError description
  | .inactive => .inactiveError description
  | .inUse => .inUseError description
  | .invalidRange => .invalidRangeError description
  | .notEmpty => .notEmptyError description
  | .notFound => .resourceNotFoundError description
  | .internalError => .serverError description
  | .timeout => .timeoutError description

/-- The exception kind each taxonomy row demands, written from the spec 4.3
table (spec side of the mapping, for comparison with
get_exception_for_error_code). -/
def specErrorKindTable : ApiErrorCode → String
  | .authenticationFailed => "AuthenticationError"
  | .authorizationFailed => "AuthorizationError"
  | .badRequest => "BadRequestError"
  | .conflict => "ConflictError"
  | .deserializationFailed => "DeserializationError"
  | .inactive => "InactiveError"
  | .inUse => "InUseError"
  | .invalidRange => "InvalidRangeError"
  | .notEmpty => "NotEmptyError"
  | .notFound => "ResourceNotFoundError"
  | .internalError => "ServerError"
  | .timeout => "TimeoutError"

/-- The JSON body of a server error response: an object with the Error code
string and the human Description (spec 6, wire protocol). -/
def errorResponseJson (code : ApiErrorCode) (description : String) : Json :=
  .obj [("Error", .str code.wire), ("Description", .str description)]

/-- Outcome of one transport invocation: a transport-level failure
(connection failure, timeout, any non-HTTP-status network error) or an HTTP
response with a status and an optional decoded JSON body (none models an
empty body; JSON parse failures of non-empty 2xx bodies are not exercised
by the claims and are not modelled). -/
inductive TransportOutcome where
  | transportFailure (msg : String)
  | httpResponse (status : Nat) (body : Option Json)

/-- Modelled from the spec: translation of a non-2xx HTTP response into an
exception (base.py is not among the sources).  A body shaped
Error/Description is mapped through the taxonomy table; an unrecognised
code or a missing/malformed body falls back as the spec describes (5xx to
ServerError, otherwise the generic SdkException), with the message prefixed
by Unexpected error as pinned by tests/test_base.py
test_request_with_malformed_error_response. -/
def mapHttpFailure (status : Nat) (body : Option Json) : SdkError :=
  match body with
  | some (.obj fields) =>
    match jLookup fields "Error", jLookup fields "Description" with
    | some (.str codeStr), some (.str desc) =>
      match codeOfString codeStr with
      | some code => get_exception_for_error_code code desc
      | none => .sdkException ("Unexpected error: " ++ desc)
    | _, _ =>
      if 500 ≤ status then .serverError ("Unexpected error: HTTP " ++ toString status)
      else .sdkException ("Unexpected error: HTTP " ++ toString status)
  | _ =>
    if 500 ≤ status then .serverError ("Unexpected error: HTTP " ++ toString status)
    else .sdkException ("Unexpected error: HTTP " ++ toString status)

/-- Modelled from the spec: the attempt loop of BaseClient.request (base.py
is not among the sources).  Per spec 4.2 the state machine performs up to
retries + 1 total attempts; a transport-level failure triggers the next
attempt until the budget is exhausted, while any HTTP response ends the
loop at once (2xx decoded, non-2xx mapped, never retried).  The exhaustion
message format is pinned by tests/test_base.py
(test_request_max_retries_exhausted, test_request_with_network_error): the
text cites the configured retry count.  The transport is a map from the
attempt index to its outcome; the second component of the result counts
transport invocations. -/
def requestGo (retries : Nat) (transport : Nat → TransportOutcome)
    (attempt : Nat) (remaining : Nat) : Except SdkError (Option Json) × Nat :=
  match transport attempt with
  | .httpResponse status body =>
    (if 200 ≤ status ∧ status < 300 then .ok body
     else .error (mapHttpFailure status body), 1)
  | .transportFailure _ =>
    match remaining with
    | 0 => (.error (.sdkException
        ("Request failed after " ++ toString retries ++ " attempts")), 1)
    | n + 1 =>
      let r := requestGo retries transport (attempt + 1) n
      (r.1, r.2 + 1)

/-- Modelled from the spec: BaseClient.request of a configured client run
against a transport; returns the decoded body (none for an empty 2xx body)
or the mapped exception, paired with the number of transport invocations
made. -/
def request (c : BaseClient) (transport : Nat → TransportOutcome) :
    Except SdkError (Option Json) × Nat :=
  requestGo c.retries transport 0 c.retries

/-- A transport on which every invocation fails at the transport level. -/
def alwaysFailTransport : Nat → TransportOutcome :=
  fun _ => .transportFailure "Connection failed"

/-- An extracted atom, translated from models/atom.py (AtomModel):
Content required string, the rest optional with None defaults. -/
structure AtomModel where
  content : String
  atom_type : Option String
  position : Option (List (String × Json))
  metadata : Option (List (String × Json))

/-- Atom extraction result, translated from
models/atom_extraction_result.py (AtomExtractionResultModel): Atoms
defaults to the empty list when absent, Metadata and FileType default to
None. -/
structure AtomExtractionResultModel where
  atoms : List AtomModel
  metadata : Option (List (String × Json))
  file_type : Option String

/-- Field extraction for a pydantic field with an alias under
populate_by_name=True: the alias key is consulted first, then the field
name. -/
def aliasLookup (fields : List (String × Json)) (al nm : String) : Option Json :=
  match jLookup fields al with
  | some v => some v
  | none => jLookup fields nm

/-- Validation of an optional dict-valued pydantic field (present dict
kept, JSON null or absent gives None, anything else rejected). -/
def validateOptDict (v : Option Json) (label : String) :
    Except String (Option (List (String × Json))) :=
  match v with
  | none => .ok none
  | some .null => .ok none
  | some (.obj fs) => .ok (some fs)
  | some _ => .error (label ++ ": dictionary required")

/-- Validation of an optional string-valued pydantic field. -/
def validateOptStr (v : Option Json) (label : String) :
    Except String (Option String) :=
  match v with
  | none => .ok none
  | some .null => .ok none
  | some (.str s) => .ok (some s)
  | some _ => .error (label ++ ": string required")

/-- Translated from models/atom.py: pydantic validation of one atom object
(dict required; Content, or content by field name, a required string;
AtomType, Position, Metadata optional).  The numeric coercions of pydantic
lax mode are not exercised by the claims and are not modelled. -/
def validateAtom (j : Json) : Except String AtomModel :=
  match j with
  | .obj fields =>
    match aliasLookup fields "Content" "content" with
    | some (.str s) =>
      match validateOptStr (aliasLookup fields "AtomType" "atom_type") "AtomType" with
      | .error e => .error e
      | .ok at2 =>
        match validateOptDict (aliasLookup fields "Position" "position") "Position" with
        | .error e => .error e
        | .ok pos =>
          match validateOptDict (aliasLookup fields "Metadata" "metadata") "Metadata" with
          | .error e => .error e
          | .ok md => .ok ⟨s, at2, pos, md⟩
    | some _ => .error "Content: string required"
    | none => .error "Content: field required"
  | _ => .error "atom: dictionary required"

/-- Element-wise validation of the Atoms list. -/
def validateAtomList : List Json → Except String (List AtomModel)
  | [] => .ok []
  | j :: js =>
    match validateAtom j with
    | .error e => .error e
    | .ok a =>
      match validateAtomList js with
      | .error e => .error e
      | .ok rest => .ok (a :: rest)

/-- Translated from models/atom_extraction_result.py:
AtomExtractionResultModel.model_validate on a decoded JSON body.  With
populate_by_name=True each field is populated from its alias (Atoms,
Metadata, FileType) or from its field name; a missing Atoms value defaults
to the empty list via default_factory=list. -/
def model_validate_atom_extraction (j : Json) :
    Except String AtomExtractionResultModel :=
  match j with
  | .obj fields =>
    match aliasLookup fields "Atoms" "atoms" with
    | none =>
      match validateOptDict (aliasLookup fields "Metadata" "metadata") "Metadata" with
      | .error e => .error e
      | .ok md =>
        match validateOptStr (aliasLookup fields "FileType" "file_type") "FileType" with
        | .error e => .error e
        | .ok ft => .ok ⟨[], md, ft⟩
    | some (.arr js) =>
      match validateAtomList js with
      | .error e => .error e
      | .ok atoms =>
        match validateOptDict (aliasLookup fields "Metadata" "metadata") "Metadata" with
        | .error e => .error e
        | .ok md =>
          match validateOptStr (aliasLookup fields "FileType" "file_type") "FileType" with
          | .error e => .error e
          | .ok ft => .ok ⟨atoms, md, ft⟩
    | some _ => .error "Atoms: list required"
  | _ => .error "result: dictionary required"

/-- Recogniser for the unsupported-format validation error of
extract_atoms (any ValidationError whose message announces an unsupported
format). -/
def isUnsupportedFormatError (e : SdkError) : Bool :=
  match e with
  | .validationError m => charStarts "Unsupported format: ".toList m.toList
  | _ => false

/-- Boolean error test on results. -/
def exceptIsError {α : Type} : Except SdkError α → Bool
  | .error _ => true
  | .ok _ => false

/-- An ordinary open file handle, as produced by open(path, "rb") and
passed directly in examples/demo_file_inputs.py (extract_from_binary_io):
it carries a usable name attribute, but the isinstance test of
_prepare_file_input does not recognise io.BufferedReader, because
checks against the typing class BinaryIO are nominal. -/
def bufferedReaderStream : StreamObj :=
  ⟨false, "<class \x27_io.BufferedReader\x27>", some "path/to/your/file.pdf",
   [37, 80, 68, 70], 0⟩

/-- A transport whose first invocation yields a 409 response with a
well-formed Conflict error body (the scenario of tests/test_base.py
test_conflict_error). -/
def conflictTransport : Nat → TransportOutcome :=
  fun _ => .httpResponse 409 (some (errorResponseJson .conflict
    "Operation failed as it would create a conflict with an existing resource."))

/-- A small filesystem with one directory-like entry and nothing else. -/
def witnessFs : String → PathStatus :=
  fun p => if p == "/tmp/dir" then .notFile else .absent

/-- An in-memory BytesIO buffer whose name attribute happens to hold the
sentinel value file. -/
def bytesIONamedFile : StreamObj :=
  ⟨true, "<class \x27_io.BytesIO\x27>", some "file", [1], 0⟩

theorem string_toList_append (a b : String) : (a ++ b).toList = a.toList ++ b.toList :=
  String.data_append a b

theorem charStarts_false_of_head_ne (a b : Char) (as bs : List Char)
    (h : (a == b) = false) : charStarts (a :: as) (b :: bs) = false := by
  simp [charStarts, h]

/-- The claim of C8 names a generic SdkException; the code raises the
builtin ValueError (configuration.py get_client, pinned by
tests/test_configuration.py).  This exhibits the divergence on a concrete
unconfigured call: the raised error is a ValueError carrying exactly the
documented message, and it is not the generic SdkException. -/
theorem c8_not_configured_counterexample :
    detect_type none (fun _ => .absent) (.bytes []) none =
      .error (.valueError notConfiguredMessage) ∧
    SdkError.isGenericSdkException (.valueError notConfiguredMessage) = false ∧
    notConfiguredMessage = "SDK is not configured. Call \x27configure\x27 first." :=
  ⟨rfl, rfl, rfl⟩

/-- C8 (amended): every public operation (connectivity check, type
detection, atom extraction and its per-format specializations) invoked
without prior configuration fails with the builtin ValueError — not an
SdkException — whose message is exactly the documented one, before any file
normalization or network activity (the error is the same for every
filesystem and file input). -/
theorem c8_not_configured_amended :
    ∀ (fs : String → PathStatus) (fi : FileInput) (ft : String)
      (ocr : Option Bool) (fn : Option String),
      extract_atoms none fs fi ft ocr fn = .error (.valueError notConfiguredMessage) ∧
      extract_atoms_pdf none fs fi ocr fn = .error (.valueError notConfiguredMessage) ∧
      detect_type none fs fi fn = .error (.valueError notConfiguredMessage) ∧
      validate_connectivity none = .error (.valueError notConfiguredMessage) := by
  intro fs fi ft ocr fn
  exact ⟨rfl, rfl, rfl, rfl⟩

/-- The claim of C9 states that configure rejects an empty base address;
the code only rejects a missing (None) endpoint (configuration.py).
Configuring with the empty string succeeds and installs a client whose
base address is the empty string. -/
theorem c9_configure_counterexample :
    applyConfigure (some ⟨"http://old-api.com", 10, 3⟩) (some "")
        configureDefaultTimeout configureDefaultRetries = .ok (some ⟨"", 10, 3⟩) ∧
    exceptIsError (applyConfigure (some ⟨"http://old-api.com", 10, 3⟩) (some "")
        configureDefaultTimeout configureDefaultRetries) = false :=
  ⟨rfl, rfl⟩

/-- C9 (amended): configure raises an error (the builtin ValueError with
message Endpoint is required) exactly when the base address is missing;
every provided base address string — the empty string included — is
accepted and installs a fresh process-wide client holding exactly that base
address and the given timeout and retry count (defaults 10 and 3),
replacing whatever instance was configured before. -/
theorem c9_configure_amended :
    ∀ (prev : Option BaseClient) (t r : Nat) (e : String),
      applyConfigure prev none t r = .error (.valueError "Endpoint is required") ∧
      applyConfigure prev (some e) t r = .ok (some ⟨e, t, r⟩) ∧
      configureDefaultTimeout = 10 ∧ configureDefaultRetries = 3 := by
  intro prev t r e
  exact ⟨rfl, rfl, rfl, rfl⟩

/-- C6: evaluation of extract_atoms at the failing input — an ordinary open
file handle (io.BufferedReader, exactly what
examples/demo_file_inputs.py extract_from_binary_io passes, with a usable
name attribute.  The isinstance dispatch of _prepare_file_input does not
recognise it, so instead of being accepted, rewound and sent, the stream is
rejected with the unexpected-type ValidationError. -/
theorem c6_open_file_stream_rejected :
    extract_atoms (some ⟨"http://test-api.com", 10, 3⟩) (fun _ => .absent)
        (.stream bufferedReaderStream) "pdf" (some true) none =
      .error (.validationError
        "file_input must be str (file path), bytes, or file-like object, got <class \x27_io.BufferedReader\x27>") :=
  rfl

/-- The claim of C10 quantifies over every response object lacking the
Atoms key; because the model is configured with populate_by_name=True, an
object carrying the field name atoms instead still populates the list.
Concrete refutation: a body without the Atoms key whose atoms key holds one
atom yields a one-element list, not the empty list. -/
theorem c10_missing_atoms_counterexample :
    jLookup [("atoms", Json.arr [Json.obj [("Content", Json.str "hello")]])] "Atoms" = none ∧
    model_validate_atom_extraction
        (Json.obj [("atoms", Json.arr [Json.obj [("Content", Json.str "hello")]])]) =
      .ok ⟨[⟨"hello", none, none, none⟩], none, none⟩ ∧
    ([(⟨"hello", none, none, none⟩ : AtomModel)].length = 0) = False := by
  refine ⟨rfl, rfl, ?_⟩
  simp

/-- C10 (amended): a successful extraction body that is an object lacking
both the Atoms key and the atoms field name (for example the empty object)
validates to a result whose atoms list is the empty list — the missing list
is defaulted, not an error. -/
theorem c10_missing_atoms_amended :
    ∀ (fields : List (String × Json)) (r : AtomExtractionResultModel),
      jLookup fields "Atoms" = none →
      jLookup fields "atoms" = none →
      model_validate_atom_extraction (Json.obj fields) = .ok r →
      r.atoms = [] := by
  intro fields r h1 h2 h3
  have hA : aliasLookup fields "Atoms" "atoms" = none := by
    simp [aliasLookup, h1, h2]
  simp only [model_validate_atom_extraction, hA] at h3
  cases hMd : validateOptDict (aliasLookup fields "Metadata" "metadata") "Metadata" with
  | error e => rw [hMd] at h3; exact Except.noConfusion h3
  | ok md =>
    rw [hMd] at h3
    cases hFt : validateOptStr (aliasLookup fields "FileType" "file_type") "FileType" with
    | error e => rw [hFt] at h3; exact Except.noConfusion h3
    | ok ft =>
      rw [hFt] at h3
      injection h3 with h4
      rw [← h4]

theorem c10_missing_atoms_amended_witness :
    model_validate_atom_extraction (Json.obj []) = .ok ⟨[], none, none⟩ ∧
    (⟨[], none, none⟩ : AtomExtractionResultModel).atoms = [] :=
  ⟨rfl, c10_missing_atoms_amended [] ⟨[], none, none⟩ rfl rfl rfl⟩

theorem requestGo_allFail (retries : Nat) (transport : Nat → TransportOutcome)
    (h : ∀ i, ∃ m, transport i = .transportFailure m) :
    ∀ (remaining attempt : Nat),
      requestGo retries transport attempt remaining =
        (.error (.sdkException ("Request failed after " ++ toString retries ++ " attempts")),
         remaining + 1) := by
  intro remaining
  induction remaining with
  | zero =>
    intro attempt
    obtain ⟨m, hm⟩ := h attempt
    simp only [requestGo, hm]
  | succ n ih =>
    intro attempt
    obtain ⟨m, hm⟩ := h attempt
    simp only [requestGo, hm, ih (attempt + 1)]

/-- The claim of C1 states that on total transport failure the generic
error message cites the number of attempts made.  With the default retry
count 3 the client performs 4 transport invocations (spec 4.2: retries + 1
attempts), yet the message pinned by tests/test_base.py is Request failed
after 3 attempts: the decimal numeral of the attempt count, 4, occurs
nowhere in that message, so the message does not state the number of
attempts made. -/
theorem c1_retry_exhaustion_counterexample :
    (request ⟨"http://test-api.com", 10, 3⟩ alwaysFailTransport).2 = 3 + 1 ∧
    (request ⟨"http://test-api.com", 10, 3⟩ alwaysFailTransport).1 =
      .error (.sdkException "Request failed after 3 attempts") ∧
    strContains "Request failed after 3 attempts" "4" = false :=
  ⟨rfl, rfl, by decide⟩

/-- C1 (amended): when every transport invocation fails with a
transport-level error, request makes exactly retries + 1 transport
invocations and raises the generic SDK error whose message cites the
configured retry count (one less than the number of attempts made). -/
theorem c1_retry_exhaustion_amended :
    ∀ (c : BaseClient) (transport : Nat → TransportOutcome),
      (∀ i, ∃ m, transport i = .transportFailure m) →
      request c transport =
        (.error (.sdkException
          ("Request failed after " ++ toString c.retries ++ " attempts")),
         c.retries + 1) := by
  intro c transport h
  exact requestGo_allFail c.retries transport h c.retries 0

theorem c1_retry_exhaustion_amended_witness :
    request ⟨"http://test-api.com", 10, 2⟩ alwaysFailTransport =
      (.error (.sdkException "Request failed after 2 attempts"), 3) := by
  exact c1_retry_exhaustion_amended ⟨"http://test-api.com", 10, 2⟩ alwaysFailTransport
    (fun _ => ⟨"Connection failed", rfl⟩)

/-- C2: a non-2xx HTTP response on the first attempt ends the request at
once — exactly one transport invocation, no retry — and the raised
exception is the one the fixed taxonomy table assigns to the server Error
code, its kind agreeing with the spec table and the server Description
preserved verbatim as the whole message. -/
theorem c2_http_error_mapping :
    ∀ (c : BaseClient) (transport : Nat → TransportOutcome) (status : Nat)
      (code : ApiErrorCode) (desc : String),
      transport 0 = .httpResponse status (some (errorResponseJson code desc)) →
      ¬ (200 ≤ status ∧ status < 300) →
      request c transport = (.error (get_exception_for_error_code code desc), 1) ∧
      (get_exception_for_error_code code desc).message = desc ∧
      (get_exception_for_error_code code desc).kindName = specErrorKindTable code := by
  intro c transport status code desc h0 hs
  refine ⟨?_, ?_, ?_⟩
  · unfold request
    cases hr : c.retries with
    | zero =>
      simp only [requestGo, h0, if_neg hs]
      cases code <;> rfl
    | succ n =>
      simp only [requestGo, h0, if_neg hs]
      cases code <;> rfl
  · cases code <;> rfl
  · cases code <;> rfl

theorem c2_http_error_mapping_witness :
    request ⟨"http://test-api.com", 10, 3⟩ conflictTransport =
      (.error (.conflictError
        "Operation failed as it would create a conflict with an existing resource."), 1) ∧
    SdkError.message (.conflictError
      "Operation failed as it would create a conflict with an existing resource.") =
      "Operation failed as it would create a conflict with an existing resource." ∧
    SdkError.kindName (.conflictError
      "Operation failed as it would create a conflict with an existing resource.") =
      specErrorKindTable .conflict := by
  have h := c2_http_error_mapping ⟨"http://test-api.com", 10, 3⟩ conflictTransport 409
    .conflict "Operation failed as it would create a conflict with an existing resource."
    rfl (by decide)
  exact ⟨h.1, h.2.1, h.2.2⟩

/-- C5: the failure taxonomy of file-input normalization, all decided
before any network activity (prepare_file_input is pure and extract_atoms
and detect_type invoke the transport only on its success): a nonexistent
path fails NotFound; an existing non-regular-file path fails Validation; a
bytes input with no (or empty) filename fails Validation; an accepted
file-like input with no (or empty) filename whose name attribute is absent
or equals the sentinel file fails Validation; any input of any other shape
— a stream the isinstance dispatch does not recognise included — fails
Validation reporting the unexpected type. -/
theorem c5_normalization_failures :
    ∀ (fs : String → PathStatus) (p : String) (fn : Option String)
      (b : List Nat) (s : StreamObj) (t : String),
      (fs p = .absent →
        prepare_file_input fs (.path p) fn =
          .error (.fileNotFoundError ("File does not exist: " ++ p))) ∧
      (fs p = .notFile →
        prepare_file_input fs (.path p) fn =
          .error (.validationError ("Path is not a file: " ++ p))) ∧
      (truthyFilename fn = none →
        prepare_file_input fs (.bytes b) fn =
          .error (.validationError "filename is required when file_input is bytes")) ∧
      (s.passes_isinstance_check = true → truthyFilename fn = none →
        (s.name = none ∨ s.name = some "file") →
        prepare_file_input fs (.stream s) fn =
          .error (.validationError
            "filename is required when file_input is a file-like object without a name")) ∧
      (s.passes_isinstance_check = false →
        prepare_file_input fs (.stream s) fn =
          .error (.validationError
            ("file_input must be str (file path), bytes, or file-like object, got " ++ s.typeName))) ∧
      (prepare_file_input fs (.other t) fn =
        .error (.validationError
          ("file_input must be str (file path), bytes, or file-like object, got " ++ t))) := by
  intro fs p fn b s t
  refine ⟨?_, ?_, ?_, ?_, ?_, ?_⟩
  · intro hp
    simp only [prepare_file_input, hp]
  · intro hp
    simp only [prepare_file_input, hp]
  · intro hf
    simp only [prepare_file_input, hf]
  · intro hpass hf hname
    rcases hname with hn | hn <;>
      simp [prepare_file_input, hpass, hf, hn]
  · intro hpass
    simp only [prepare_file_input, hpass]
    rfl
  · rfl

theorem c5_normalization_failures_witness :
    prepare_file_input witnessFs (.path "/missing.txt") none =
      .error (.fileNotFoundError ("File does not exist: " ++ "/missing.txt")) ∧
    prepare_file_input witnessFs (.path "/tmp/dir") none =
      .error (.validationError ("Path is not a file: " ++ "/tmp/dir")) ∧
    prepare_file_input witnessFs (.bytes [1]) (some "") =
      .error (.validationError "filename is required when file_input is bytes") ∧
    prepare_file_input witnessFs (.stream bytesIONamedFile) none =
      .error (.validationError
        "filename is required when file_input is a file-like object without a name") ∧
    prepare_file_input witnessFs (.stream bufferedReaderStream) none =
      .error (.validationError
        ("file_input must be str (file path), bytes, or file-like object, got " ++
          bufferedReaderStream.typeName)) ∧
    prepare_file_input witnessFs (.other "<class \x27int\x27>") none =
      .error (.validationError
        ("file_input must be str (file path), bytes, or file-like object, got " ++
          "<class \x27int\x27>")) := by
  have h1 := (c5_normalization_failures witnessFs "/missing.txt" none [1]
    bytesIONamedFile "<class \x27int\x27>").1 rfl
  have h2 := (c5_normalization_failures witnessFs "/tmp/dir" none [1]
    bytesIONamedFile "<class \x27int\x27>").2.1 rfl
  have h3 := (c5_normalization_failures witnessFs "/missing.txt" (some "") [1]
    bytesIONamedFile "<class \x27int\x27>").2.2.1 rfl
  have h4 := (c5_normalization_failures witnessFs "/missing.txt" none [1]
    bytesIONamedFile "<class \x27int\x27>").2.2.2.1 rfl rfl (Or.inr rfl)
  have h5 := (c5_normalization_failures witnessFs "/missing.txt" none [1]
    bufferedReaderStream "<class \x27int\x27>").2.2.2.2.1 rfl
  have h6 := (c5_normalization_failures witnessFs "/missing.txt" none [1]
    bytesIONamedFile "<class \x27int\x27>").2.2.2.2.2
  exact ⟨h1, h2, h3, h4, h5, h6⟩

theorem lookup_eq_none_of_not_mem_keys (l : List (String × String)) (k : String)
    (h : k ∉ l.map Prod.fst) : l.lookup k = none := by
  induction l with
  | nil => rfl
  | cons kv rest ih =>
    simp only [List.map_cons, List.mem_cons, not_or] at h
    obtain ⟨h1, h2⟩ := h
    have hb : (k == kv.1) = false := beq_eq_false_iff_ne.mpr h1
    simp [List.lookup, hb, ih h2]

theorem charStarts_usf_path (p : String) :
    charStarts "Unsupported format: ".toList (("Path is not a file: " ++ p).toList) = false := by
  rw [string_toList_append]
  exact charStarts_false_of_head_ne 'U' 'P' _ _ (by decide)

theorem charStarts_usf_type (t : String) :
    charStarts "Unsupported format: ".toList
      (("file_input must be str (file path), bytes, or file-like object, got " ++ t).toList) = false := by
  rw [string_toList_append]
  exact charStarts_false_of_head_ne 'U' 'f' _ _ (by decide)

theorem prepare_error_not_unsupported
    (fs : String → PathStatus) (fi : FileInput) (fn : Option String) (e : SdkError)
    (h : prepare_file_input fs fi fn = .error e) :
    isUnsupportedFormatError e = false := by
  cases fi with
  | path p =>
    simp only [prepare_file_input] at h
    cases hp : fs p with
    | absent =>
      rw [hp] at h
      injection h with h2
      rw [← h2]
      rfl
    | notFile =>
      rw [hp] at h
      injection h with h2
      rw [← h2]
      exact charStarts_usf_path p
    | file c =>
      rw [hp] at h
      exact Except.noConfusion h
  | bytes b =>
    simp only [prepare_file_input] at h
    cases hf : truthyFilename fn with
    | none =>
      rw [hf] at h
      injection h with h2
      rw [← h2]
      rfl
    | some f =>
      rw [hf] at h
      exact Except.noConfusion h
  | stream s =>
    cases hpass : s.passes_isinstance_check with
    | false =>
      simp only [prepare_file_input, hpass, Bool.false_eq_true, if_false] at h
      injection h with h2
      rw [← h2]
      exact charStarts_usf_type s.typeName
    | true =>
      cases hf : truthyFilename fn with
      | some f =>
        simp only [prepare_file_input, hpass, hf, if_true] at h
        exact Except.noConfusion h
      | none =>
        cases hn : s.name with
        | none =>
          simp only [prepare_file_input, hpass, hf, hn, if_true] at h
          injection h with h2
          rw [← h2]
          rfl
        | some n =>
          simp only [prepare_file_input, hpass, hf, hn, if_true] at h
          by_cases hfile : (n == "file") = true
          · rw [if_pos hfile] at h
            injection h with h2
            rw [← h2]
            rfl
          · rw [if_neg hfile] at h
            exact Except.noConfusion h
  | other t =>
    simp only [prepare_file_input] at h
    injection h with h2
    rw [← h2]
    exact charStarts_usf_type t

/-- C4: extract_atoms validates the lower-cased format against the fixed
set of thirteen supported formats, before file normalization and before any
network call (the same error results for every filesystem and file input);
the Validation message lists the supported set; and when the lower-cased
format is supported, no unsupported-format Validation error can be raised
(the check is case-insensitive through the lower-casing). -/
theorem c4_format_validation :
    ∀ (c : BaseClient) (fs : String → PathStatus) (fi : FileInput)
      (ft : String) (ocr : Option Bool) (fn : Option String),
      (SUPPORTED_FORMATS.contains (pyLower ft) = false →
        extract_atoms (some c) fs fi ft ocr fn =
          .error (.validationError (unsupportedFormatMessage (pyLower ft)))) ∧
      (unsupportedFormatMessage (pyLower ft) =
        "Unsupported format: " ++ pyLower ft ++ ". Supported formats: " ++
          "csv, excel, html, json, markdown, ocr, pdf, png, powerpoint, rtf, text, word, xml") ∧
      (SUPPORTED_FORMATS.contains (pyLower ft) = true →
        ∀ e, extract_atoms (some c) fs fi ft ocr fn = .error e →
          isUnsupportedFormatError e = false) := by
  intro c fs fi ft ocr fn
  refine ⟨?_, rfl, ?_⟩
  · intro h
    simp only [extract_atoms, get_client, h, Bool.false_eq_true, if_false]
  · intro h e he
    simp only [extract_atoms, get_client, h, if_true] at he
    cases hp : prepare_file_input fs fi fn with
    | error e2 =>
      rw [hp] at he
      injection he with h2
      rw [← h2]
      exact prepare_error_not_unsupported fs fi fn e2 hp
    | ok pr =>
      rw [hp] at he
      exact Except.noConfusion he

theorem c4_format_validation_witness :
    extract_atoms (some ⟨"http://test-api.com", 10, 3⟩) witnessFs (.bytes [1])
        "unsupported-format" none (some "f.bin") =
      .error (.validationError (unsupportedFormatMessage "unsupported-format")) ∧
    isUnsupportedFormatError
      (.validationError "filename is required when file_input is bytes") = false := by
  have ha := (c4_format_validation ⟨"http://test-api.com", 10, 3⟩ witnessFs (.bytes [1])
    "unsupported-format" none (some "f.bin")).1 rfl
  have hb := (c4_format_validation ⟨"http://test-api.com", 10, 3⟩ witnessFs (.bytes [1])
    "PDF" none none).2.2 rfl
    (.validationError "filename is required when file_input is bytes") rfl
  exact ⟨ha, hb⟩

theorem supported_pyLower_fix : ∀ ft ∈ SUPPORTED_FORMATS, pyLower ft = ft := by decide

theorem supported_contains : ∀ ft ∈ SUPPORTED_FORMATS,
    SUPPORTED_FORMATS.contains ft = true := by decide

theorem supported_url_noflag : ∀ ft ∈ SUPPORTED_FORMATS,
    get_url_base "atom" [some ft] (extract_query_params ft none) = "atom/" ++ ft ∧
    get_url_base "atom" [some ft] (extract_query_params ft (some false)) = "atom/" ++ ft := by
  decide

theorem supported_url_ocr : ∀ ft ∈ SUPPORTED_FORMATS,
    get_url_base "atom" [some ft] (extract_query_params ft (some true)) =
      (if ft ∈ FORMATS_WITH_OCR then "atom/" ++ ft ++ "?ocr" else "atom/" ++ ft) := by
  decide

theorem extract_atoms_ok_of_prepare (c : BaseClient) (fs : String → PathStatus)
    (fi : FileInput) (fn : Option String) (ft : String) (fo : PyFileObj) (nm : String)
    (hlow : pyLower ft = ft) (hsup : SUPPORTED_FORMATS.contains ft = true)
    (hprep : prepare_file_input fs fi fn = .ok (fo, nm)) (ocr : Option Bool) :
    extract_atoms (some c) fs fi ft ocr fn =
      .ok ⟨"POST", get_url_base "atom" [some ft] (extract_query_params ft ocr),
           (fo.seek 0).readAll,
           [("Content-Type", (MIME_TYPES.lookup ft).getD "application/octet-stream")]⟩ := by
  simp only [extract_atoms, get_client, hlow, hsup, if_true, hprep]

/-- C3: for every format in the fixed supported set and every file input
that normalizes successfully, extract_atoms builds the relative URL
atom/format with no query string when ocr is omitted or passed false; with
ocr passed true the URL gains the value-less ocr flag exactly for the three
OCR-capable formats (pdf, powerpoint, rtf) and is unchanged for every other
supported format. -/
theorem c3_url_construction :
    ∀ (c : BaseClient) (fs : String → PathStatus) (fi : FileInput)
      (fn : Option String) (ft : String) (fo : PyFileObj) (nm : String),
      ft ∈ SUPPORTED_FORMATS →
      prepare_file_input fs fi fn = .ok (fo, nm) →
      (∀ ocr : Option Bool, (ocr = none ∨ ocr = some false) →
        extract_atoms (some c) fs fi ft ocr fn =
          .ok ⟨"POST", "atom/" ++ ft, (fo.seek 0).readAll,
               [("Content-Type", (MIME_TYPES.lookup ft).getD "application/octet-stream")]⟩) ∧
      (extract_atoms (some c) fs fi ft (some true) fn =
        .ok ⟨"POST",
             (if ft ∈ FORMATS_WITH_OCR then "atom/" ++ ft ++ "?ocr" else "atom/" ++ ft),
             (fo.seek 0).readAll,
             [("Content-Type", (MIME_TYPES.lookup ft).getD "application/octet-stream")]⟩) := by
  intro c fs fi fn ft fo nm hmem hprep
  have hlow := supported_pyLower_fix ft hmem
  have hsup := supported_contains ft hmem
  constructor
  · intro ocr hocr
    rw [extract_atoms_ok_of_prepare c fs fi fn ft fo nm hlow hsup hprep ocr]
    rcases hocr with rfl | rfl
    · rw [(supported_url_noflag ft hmem).1]
    · rw [(supported_url_noflag ft hmem).2]
  · rw [extract_atoms_ok_of_prepare c fs fi fn ft fo nm hlow hsup hprep (some true)]
    rw [supported_url_ocr ft hmem]

theorem c3_url_construction_witness :
    extract_atoms (some ⟨"http://test-api.com", 10, 3⟩) witnessFs (.bytes [1, 2])
        "pdf" none (some "f.pdf") =
      .ok ⟨"POST", "atom/pdf", [1, 2], [("Content-Type", "application/pdf")]⟩ ∧
    extract_atoms (some ⟨"http://test-api.com", 10, 3⟩) witnessFs (.bytes [1, 2])
        "pdf" (some true) (some "f.pdf") =
      .ok ⟨"POST", "atom/pdf?ocr", [1, 2], [("Content-Type", "application/pdf")]⟩ ∧
    extract_atoms (some ⟨"http://test-api.com", 10, 3⟩) witnessFs (.bytes [1, 2])
        "csv" (some true) (some "f.csv") =
      .ok ⟨"POST", "atom/csv", [1, 2], [("Content-Type", "text/csv")]⟩ := by
  have hpdf := c3_url_construction ⟨"http://test-api.com", 10, 3⟩ witnessFs (.bytes [1, 2])
    (some "f.pdf") "pdf" ⟨[1, 2], 0⟩ "f.pdf" (by decide) rfl
  have hcsv := c3_url_construction ⟨"http://test-api.com", 10, 3⟩ witnessFs (.bytes [1, 2])
    (some "f.csv") "csv" ⟨[1, 2], 0⟩ "f.csv" (by decide) rfl
  refine ⟨?_, ?_, ?_⟩
  · have h := hpdf.1 none (Or.inl rfl)
    simpa using h
  · have h := hpdf.2
    simpa using h
  · have h := hcsv.2
    simpa using h

/-- C7: content-type inference in detect_type is a total pure function of
the filename — the lower-cased Path suffix looked up in the fixed table,
every suffix outside the table mapping to the generic binary type — and a
file named report.docx is sent with the Word-document content type.  The
second component shows the end-to-end behaviour: detect_type on such a file
issues the typedetect request with exactly that Content-Type header and the
full byte payload. -/
theorem c7_content_type_inference :
    (∀ name : String,
      (pyLower (pySuffix name) = ".pdf" → detect_content_type name = "application/pdf") ∧
      (pyLower (pySuffix name) = ".png" → detect_content_type name = "image/png") ∧
      (pyLower (pySuffix name) = ".jpg" → detect_content_type name = "image/jpeg") ∧
      (pyLower (pySuffix name) = ".jpeg" → detect_content_type name = "image/jpeg") ∧
      (pyLower (pySuffix name) = ".docx" → detect_content_type name =
        "application/vnd.openxmlformats-officedocument.wordprocessingml.document") ∧
      (pyLower (pySuffix name) = ".doc" → detect_content_type name = "application/msword") ∧
      (pyLower (pySuffix name) = ".xlsx" → detect_content_type name =
        "application/vnd.openxmlformats-officedocument.spreadsheetml.sheet") ∧
      (pyLower (pySuffix name) = ".xls" → detect_content_type name = "application/vnd.ms-excel") ∧
      (pyLower (pySuffix name) = ".pptx" → detect_content_type name =
        "application/vnd.openxmlformats-officedocument.presentationml.presentation") ∧
      (pyLower (pySuffix name) = ".ppt" → detect_content_type name = "application/vnd.ms-powerpoint") ∧
      (pyLower (pySuffix name) = ".txt" → detect_content_type name = "text/plain") ∧
      (pyLower (pySuffix name) = ".html" → detect_content_type name = "text/html") ∧
      (pyLower (pySuffix name) = ".htm" → detect_content_type name = "text/html") ∧
      (pyLower (pySuffix name) = ".csv" → detect_content_type name = "text/csv") ∧
      (pyLower (pySuffix name) = ".json" → detect_content_type name = "application/json") ∧
      (pyLower (pySuffix name) = ".xml" → detect_content_type name = "application/xml") ∧
      (pyLower (pySuffix name) = ".md" → detect_content_type name = "text/markdown") ∧
      (pyLower (pySuffix name) = ".rtf" → detect_content_type name = "application/rtf") ∧
      (pyLower (pySuffix name) ∉ detect_mime_map.map Prod.fst →
        detect_content_type name = "application/octet-stream")) ∧
    (∀ (bs : List Nat) (c : BaseClient) (fs : String → PathStatus),
      detect_type (some c) fs (.bytes bs) (some "report.docx") =
        .ok ⟨"POST", "typedetect", bs,
             [("Content-Type",
               "application/vnd.openxmlformats-officedocument.wordprocessingml.document")]⟩) := by
  constructor
  · intro name
    refine ⟨?_, ?_, ?_, ?_, ?_, ?_, ?_, ?_, ?_, ?_, ?_, ?_, ?_, ?_, ?_, ?_, ?_, ?_, ?_⟩ <;>
      intro h <;>
      unfold detect_content_type <;>
      (first
        | rw [h]
        | rw [lookup_eq_none_of_not_mem_keys detect_mime_map (pyLower (pySuffix name)) h]) <;>
      (try rfl)
  · intro bs c fs
    rfl

theorem c7_content_type_inference_witness :
    detect_content_type "slides.PPTX" =
      "application/vnd.openxmlformats-officedocument.presentationml.presentation" ∧
    detect_content_type "data.xyz" = "application/octet-stream" ∧
    detect_type (some ⟨"http://test-api.com", 10, 3⟩) witnessFs (.bytes [9])
        (some "report.docx") =
      .ok ⟨"POST", "typedetect", [9],
           [("Content-Type",
             "application/vnd.openxmlformats-officedocument.wordprocessingml.document")]⟩ := by
  refine ⟨?_, ?_, ?_⟩
  · exact (c7_content_type_inference.1 "slides.PPTX").2.2.2.2.2.2.2.2.1 (by decide)
  · exact (c7_content_type_inference.1
      "data.xyz").2.2.2.2.2.2.2.2.2.2.2.2.2.2.2.2.2.2 (by decide)
  · exact c7_content_type_inference.2 [9] ⟨"http://test-api.com", 10, 3⟩ witnessFs
